import Mathlib

/-!
Verification of `frame_level_models.py` (temporal-pooling-networks).

The file shallowly embeds the graph-construction code of the repository.
Tensors are modelled as dimension records with total entry functions over ℚ
(TensorFlow float arithmetic, with exact rationals standing in for floats);
Python-level failures (NameError, AttributeError, TypeError) are modelled
with `Except String`.
-/

/-- A 2-D tensor: dimensions plus a total entry function. Entries outside
the dimensions are irrelevant padding of the model. -/
structure Tensor2 where
  d0 : ℕ
  d1 : ℕ
  ent : ℕ → ℕ → ℚ

/-- A 3-D tensor: dimensions plus a total entry function. -/
structure Tensor3 where
  d0 : ℕ
  d1 : ℕ
  d2 : ℕ
  ent : ℕ → ℕ → ℕ → ℚ

/-- Embeds `tf.reduce_sum(x, axis=[1])` on a 3-D tensor: sums over the whole
(padded) time axis, producing a `[d0, d2]` tensor. -/
def reduceSumAxis1 (x : Tensor3) : Tensor2 :=
  ⟨x.d0, x.d2, fun b f => ∑ t in Finset.range x.d1, x.ent b t f⟩

/-- Elementwise division of 2-D tensors (TensorFlow `/` broadcast on equal
shapes). In the ℚ model a zero denominator yields 0 where IEEE floats would
yield inf/NaN; theorems about division by zero therefore speak about the
denominator tensor itself. -/
def elemDiv (a b : Tensor2) : Tensor2 :=
  ⟨a.d0, a.d1, fun i j => a.ent i j / b.ent i j⟩

namespace FrameLevelLogisticModel

/-- Embeds lines 87-91: `num_frames` is cast to float, expanded to
`[batch, 1]`, tiled to `[1, feature_size]` and reshaped to
`[batch, feature_size]`; every column of row `b` holds the raw count of
example `b`. No guard on the count appears in the source. -/
def denominators (numFrames : ℕ → ℕ) (batch featureSize : ℕ) : Tensor2 :=
  ⟨batch, featureSize, fun b _ => (numFrames b : ℚ)⟩

/-- Embeds lines 92-93: `avg_pooled = tf.reduce_sum(model_input, axis=[1]) /
denominators`. The sum runs over all `max_frames` (padded) rows. -/
def avgPooled (input : Tensor3) (numFrames : ℕ → ℕ) : Tensor2 :=
  elemDiv (reduceSumAxis1 input) (denominators numFrames input.d0 input.d2)

end FrameLevelLogisticModel

/-- C1: for a batch whose padded frame rows are zero and whose counts are
positive, the aggregated vector of each example equals the sum of its first
`count` frame vectors divided by that example's own count: the division is
elementwise by the per-example true frame count. -/
theorem frameLevelLogistic_avg_divides_by_own_count
    (input : Tensor3) (numFrames : ℕ → ℕ)
    (hpad : ∀ b t f, b < input.d0 → numFrames b ≤ t → t < input.d1 →
      f < input.d2 → input.ent b t f = 0)
    (hpos : ∀ b, b < input.d0 → 0 < numFrames b)
    (hle : ∀ b, b < input.d0 → numFrames b ≤ input.d1) :
    ∀ b f, b < input.d0 → f < input.d2 →
      (FrameLevelLogisticModel.avgPooled input numFrames).ent b f
        = (∑ t in Finset.range (numFrames b), input.ent b t f)
            / (numFrames b : ℚ) := by
  intro b f hb hf
  have hsum : (∑ t in Finset.range input.d1, input.ent b t f)
      = ∑ t in Finset.range (numFrames b), input.ent b t f := by
    refine (Finset.sum_subset ?_ ?_).symm
    · exact Finset.range_subset.2 (hle b hb)
    · intro t ht hnt
      exact hpad b t f hb (le_of_not_lt (by simpa using hnt))
        (Finset.mem_range.1 ht) hf
  simp [FrameLevelLogisticModel.avgPooled, FrameLevelLogisticModel.denominators,
    elemDiv, reduceSumAxis1, hsum]

/-- Witness for C1: the scenario of the spec with batch = 2, max_frames = 4,
feature_dim = 3, counts = [2, 4] (here counts b = 2 + 2 b); example 0 has
count 2 and its frame sum is divided by 2, not by 4. -/
theorem frameLevelLogistic_avg_witness :
    (FrameLevelLogisticModel.avgPooled
        ⟨2, 4, 3, fun b t _ => if t < 2 + 2 * b then 1 else 0⟩
        (fun b => 2 + 2 * b)).ent 0 0
      = (∑ t in Finset.range 2,
          (⟨2, 4, 3, fun b t _ => if t < 2 + 2 * b then 1 else 0⟩ :
            Tensor3).ent 0 t 0) / (2 : ℚ) := by
  refine frameLevelLogistic_avg_divides_by_own_count _ _ ?_ ?_ ?_ 0 0 (by decide)
    (by decide)
  · intro b t f hb ht htl hf
    exact if_neg (by omega)
  · intro b hb
    omega
  · intro b hb
    have hb2 : b < 2 := hb
    show 2 + 2 * b ≤ 4
    omega

/-- C3 counterexample: with batch = 1, feature_size = 1 and count 0 for the
single example, the denominator the averaging step divides by is 0: the code
performs the division with this zero denominator, so the claimed guard on
count > 0 does not exist. The third conjunct records that `avg_pooled` is
exactly the unguarded elementwise division by that denominator tensor. -/
theorem frameLevelLogistic_zero_count_cex :
    (fun _ : ℕ => 0) 0 = 0
      ∧ (FrameLevelLogisticModel.denominators (fun _ => 0) 1 1).ent 0 0 = 0
      ∧ FrameLevelLogisticModel.avgPooled ⟨1, 4, 1, fun _ _ _ => 1⟩ (fun _ => 0)
          = elemDiv (reduceSumAxis1 ⟨1, 4, 1, fun _ _ _ => 1⟩)
              (FrameLevelLogisticModel.denominators (fun _ => 0) 1 1) :=
  ⟨rfl, by simp [FrameLevelLogisticModel.denominators], rfl⟩

/-- C3 amended: the averaging step of `FrameLevelLogisticModel.create_model`
performs the elementwise division by the raw per-example count with no guard:
for every input, every entry of `avg_pooled` is the padded frame sum divided
by the denominator entry, and for an example whose count is 0 that
denominator entry is 0 (an unguarded division by zero; in IEEE float
arithmetic this yields inf/NaN rather than an error). -/
theorem frameLevelLogistic_divides_unguarded
    (input : Tensor3) (numFrames : ℕ → ℕ) (b f : ℕ)
    (hzero : numFrames b = 0) :
    (FrameLevelLogisticModel.avgPooled input numFrames).ent b f
        = (reduceSumAxis1 input).ent b f
            / (FrameLevelLogisticModel.denominators numFrames input.d0
                input.d2).ent b f
      ∧ (FrameLevelLogisticModel.denominators numFrames input.d0
          input.d2).ent b f = 0 := by
  constructor
  · rfl
  · simp [FrameLevelLogisticModel.denominators, hzero]

/-- Witness for the amended C3 at a concrete input with count 0. -/
theorem frameLevelLogistic_divides_unguarded_witness :
    (FrameLevelLogisticModel.avgPooled ⟨1, 4, 1, fun _ _ _ => 1⟩ (fun _ => 0)).ent 0 0
        = (reduceSumAxis1 ⟨1, 4, 1, fun _ _ _ => 1⟩).ent 0 0
            / (FrameLevelLogisticModel.denominators (fun _ => 0) 1 1).ent 0 0
      ∧ (FrameLevelLogisticModel.denominators (fun _ => 0) 1 1).ent 0 0 = 0 :=
  frameLevelLogistic_divides_unguarded ⟨1, 4, 1, fun _ _ _ => 1⟩ (fun _ => 0) 0 0 rfl

namespace TemporalPoolingNetworkModel

/-- Embeds lines 398 and 402 of the source:
`new_seq_lenth = (num_frames - pool_size)/pool_stride + 1`, applied per
example to that example's true frame count. Python 2 `/` on integer tensors
is floor division, matched here by Nat division (the theorems assume
`pool_size ≤ count`, so the Nat subtraction is the integer one). -/
def new_seq_lenth (count poolSize poolStride : ℕ) : ℕ :=
  (count - poolSize) / poolStride + 1

end TemporalPoolingNetworkModel

/-- Number of windows a VALID-padded reduction with the given window size and
stride produces over a valid prefix of length `len`: window `i` starts at
`i * stride` and must end at or before `len`. -/
def numValidWindows (len poolSize poolStride : ℕ) : ℕ :=
  ((Finset.range (len + 1)).filter
    (fun i => i * poolStride + poolSize ≤ len)).card

/-- C6: the recomputed sequence length handed to the second recurrent stage
equals `(count - pool_size) / pool_stride + 1` with integer division, and for
every count with `pool_size ≤ count ≤ max_frames` (and a positive stride, as
`tf.nn.pool` requires) this value is exactly the number of windows the VALID
reduction produces over that example's valid prefix. -/
theorem temporalPooling_new_seq_lenth_counts_windows
    (count poolSize poolStride maxFrames : ℕ)
    (hstride : 0 < poolStride) (hlo : poolSize ≤ count)
    (hhi : count ≤ maxFrames) :
    TemporalPoolingNetworkModel.new_seq_lenth count poolSize poolStride
        = (count - poolSize) / poolStride + 1
      ∧ TemporalPoolingNetworkModel.new_seq_lenth count poolSize poolStride
        = numValidWindows count poolSize poolStride := by
  refine ⟨rfl, ?_⟩
  have hdiv : ∀ i, i * poolStride + poolSize ≤ count
      ↔ i ≤ (count - poolSize) / poolStride := by
    intro i
    rw [Nat.le_div_iff_mul_le hstride]
    omega
  have hq : (count - poolSize) / poolStride ≤ count - poolSize :=
    Nat.div_le_self _ _
  have hset : (Finset.range (count + 1)).filter
      (fun i => i * poolStride + poolSize ≤ count)
        = Finset.range ((count - poolSize) / poolStride + 1) := by
    ext i
    simp only [Finset.mem_filter, Finset.mem_range, hdiv]
    omega
  rw [TemporalPoolingNetworkModel.new_seq_lenth, numValidWindows, hset,
    Finset.card_range]

/-- Witness for C6: count = 7, pool_size = 3, pool_stride = 2, max_frames = 10
give (7 - 3) / 2 + 1 = 3 windows. -/
theorem temporalPooling_new_seq_lenth_witness :
    TemporalPoolingNetworkModel.new_seq_lenth 7 3 2 = (7 - 3) / 2 + 1
      ∧ TemporalPoolingNetworkModel.new_seq_lenth 7 3 2 = numValidWindows 7 3 2 :=
  temporalPooling_new_seq_lenth_counts_windows 7 3 2 10 (by decide) (by decide)
    (by decide)

/-- One Python statement, abstracted to the names it binds and the names it
reads. Values are irrelevant to name resolution, which is what claim C2 is
about: CPython resolves each name when the statement executes and raises
NameError on the first name bound neither locally nor at module level. -/
structure PyStmt where
  targets : List String
  uses : List String

/-- Runs name resolution over a statement list: the first statement reading a
name outside the environment raises NameError; otherwise its targets are
added and execution continues. -/
def pyResolve (env : List String) : List PyStmt → Except String (List String)
  | [] => .ok env
  | s :: rest =>
    match s.uses.filter (fun u => !env.contains u) with
    | [] => pyResolve (s.targets ++ env) rest
    | u :: _ => .error ("NameError: name " ++ u ++ " is not defined")

/-- Module-level names of `frame_level_models.py`: the imports of lines
17-27, the `FLAGS` binding and the class / function definitions of the
module. -/
def frameLevelModelsGlobals : List String :=
  ["math", "models", "video_level_models", "tf", "utils", "slim", "flags",
   "FLAGS", "FrameLevelLogisticModel", "DbofModel", "LstmModel",
   "BidirectionalLSTMModel", "GRUModel", "conv1D_pool",
   "TemporalPoolingNetworkModel", "TemporalSkippingNetworkModel"]

namespace TemporalSkippingNetworkModel

/-- Statement-by-statement transcription of the body of
`TemporalSkippingNetworkModel.create_model` (lines 434-470), each statement
reduced to the names it binds and the names it reads. Line 445 binds
`new_seq_length`; line 450 reads `new_seq_lenth`, which no statement binds
and which is not a module global. -/
def body : List PyStmt :=
  [⟨["gru_size"], ["FLAGS"]⟩,
   ⟨["pool_type"], ["FLAGS"]⟩,
   ⟨["time_skip"], ["FLAGS"]⟩,
   ⟨[], ["tf"]⟩,
   ⟨["gru_1"], ["tf", "gru_size"]⟩,
   ⟨["outputs", "state"], ["tf", "gru_1", "model_input", "num_frames"]⟩,
   ⟨["skipped_outputs"], ["outputs", "time_skip"]⟩,
   ⟨["new_seq_length"], ["num_frames", "time_skip"]⟩,
   ⟨[], ["tf"]⟩,
   ⟨["gru_2"], ["tf", "gru_size"]⟩,
   ⟨["outputs2", "state2"], ["tf", "gru_2", "skipped_outputs", "new_seq_lenth"]⟩,
   ⟨["loss"], []⟩,
   ⟨["model_state"], ["tf", "state", "state2"]⟩,
   ⟨["model_outputs"], ["tf", "outputs", "outputs2"]⟩,
   ⟨["aggregated_model"], ["video_level_models", "FLAGS"]⟩,
   ⟨[], ["FLAGS", "aggregated_model", "utils", "model_outputs", "model_state",
         "vocab_size"]⟩]

/-- Embeds `TemporalSkippingNetworkModel.create_model`: execution performs
name resolution statement by statement; the `.ok` branch (never reached, as
proved below) would return the predictions tensor of the delegated
video-level classifier. -/
def create_model (input : Tensor3) (vocabSize : ℕ) (numFrames : ℕ → ℕ) :
    Except String Tensor2 :=
  match pyResolve
      (["self", "model_input", "vocab_size", "num_frames"]
        ++ frameLevelModelsGlobals) body with
  | .error e => .error e
  | .ok _ => .ok ⟨input.d0, vocabSize, fun _ _ => numFrames 0⟩

end TemporalSkippingNetworkModel

/-- C2: `TemporalSkippingNetworkModel.create_model` fails for every input:
the second recurrent stage reads `new_seq_lenth`, a name the function never
binds (it binds `new_seq_length`) and which is no module global, so execution
raises NameError there and no predictions are produced. -/
theorem temporalSkipping_always_name_error
    (input : Tensor3) (vocabSize : ℕ) (numFrames : ℕ → ℕ) :
    TemporalSkippingNetworkModel.create_model input vocabSize numFrames
      = .error "NameError: name new_seq_lenth is not defined" := by
  rfl

/-- Embeds the state evolution of `tf.nn.dynamic_rnn` for one batch example,
per the framework's documented `sequence_length` semantics: at time step `u`
the cell fires only when `u` is below the example's sequence length; at and
beyond it the state is copied through unchanged. The stacked cell itself is
framework-internal and abstract here: `cell s x = (output, new state)`. -/
def dynamicRnnState {σ : Type} (cell : σ → (ℕ → ℚ) → (ℕ → ℚ) × σ)
    (init : σ) (input : Tensor3) (seqLen : ℕ → ℕ) (b t : ℕ) : σ :=
  (List.range t).foldl
    (fun s u => if u < seqLen b then (cell s (input.ent b u)).2 else s) init

/-- Output of `tf.nn.dynamic_rnn` at time `t` for example `b`: the cell
output below the sequence length, zero-filled at and beyond it (documented
behavior of `dynamic_rnn`). -/
def dynamicRnnOutput {σ : Type} (cell : σ → (ℕ → ℚ) → (ℕ → ℚ) × σ)
    (init : σ) (input : Tensor3) (seqLen : ℕ → ℕ) (b t : ℕ) : ℕ → ℚ :=
  if t < seqLen b then
    (cell (dynamicRnnState cell init input seqLen b t) (input.ent b t)).1
  else fun _ => 0

/-- Final state of `tf.nn.dynamic_rnn` for example `b`: the state after all
`max_frames` time steps (equivalently, after `seqLen b` of them, the rest
being copy-through). -/
def dynamicRnnFinalState {σ : Type} (cell : σ → (ℕ → ℚ) → (ℕ → ℚ) × σ)
    (init : σ) (input : Tensor3) (seqLen : ℕ → ℕ) (b : ℕ) : σ :=
  dynamicRnnState cell init input seqLen b input.d1

/-- Modelled from the spec: `FramePooling` lives in `model_utils.py`, which
is absent from the sources; section 4.5 of the spec defines it as the
elementwise average, max, or sum of a per-step vector family across the time
axis. Here applied to one example's per-step vectors. -/
def poolVec (method : String) (time : ℕ) (out : ℕ → ℕ → ℚ) : ℕ → ℚ :=
  if method = "average" then
    fun f => (∑ t in Finset.range time, out t f) / (time : ℚ)
  else if method = "max" then
    fun f => (List.range time).foldl (fun a t => max a (out t f)) (out 0 f)
  else
    fun f => ∑ t in Finset.range time, out t f

/-- Modelled from the spec: `FramePooling` on a whole `[batch, time,
features]` tensor, reducing to `[batch, features]`. -/
def FramePooling (x : Tensor3) (method : String) : Tensor2 :=
  ⟨x.d0, x.d2, fun b f => poolVec method x.d1 (fun t j => x.ent b t j) f⟩

namespace LstmModel

/-- Embeds lines 256-268: the stacked LSTM cell runs over the full input
with `sequence_length=num_frames`; the vector handed to the video-level
classifier for example `b` is either the frame-pooled outputs
(`use_lstm_output`) or `state[-1].h`, the final hidden vector of the last
layer. The cell and the `state[-1].h` projection are framework-internal and
abstract: `lastH` extracts the `h` field of the last layer from the stacked
LSTM state. -/
def aggVec {σ : Type} (cell : σ → (ℕ → ℚ) → (ℕ → ℚ) × σ) (init : σ)
    (lastH : σ → ℕ → ℚ) (useLstmOutput : Bool) (method : String)
    (input : Tensor3) (seqLen : ℕ → ℕ) (b : ℕ) : ℕ → ℚ :=
  if useLstmOutput then
    poolVec method input.d1 (fun t => dynamicRnnOutput cell init input seqLen b t)
  else
    lastH (dynamicRnnFinalState cell init input seqLen b)

end LstmModel

namespace GRUModel

/-- Embeds lines 352-363: the stacked GRU cell runs over the full input with
`sequence_length=num_frames`; the vector for example `b` is either the
frame-pooled outputs (`use_lstm_output`) or `state[-1]`, the final state of
the last layer (`lastState`, framework-internal projection). -/
def aggVec {τ : Type} (cell : τ → (ℕ → ℚ) → (ℕ → ℚ) × τ) (init : τ)
    (lastState : τ → ℕ → ℚ) (useLstmOutput : Bool) (method : String)
    (input : Tensor3) (seqLen : ℕ → ℕ) (b : ℕ) : ℕ → ℚ :=
  if useLstmOutput then
    poolVec method input.d1 (fun t => dynamicRnnOutput cell init input seqLen b t)
  else
    lastState (dynamicRnnFinalState cell init input seqLen b)

end GRUModel

/-- Helper: two inputs agreeing on every frame below the sequence length of
example `b` drive the masked recurrence through identical states. -/
theorem dynamicRnnState_congr {σ : Type} (cell : σ → (ℕ → ℚ) → (ℕ → ℚ) × σ)
    (init : σ) (input1 input2 : Tensor3) (seqLen : ℕ → ℕ) (b : ℕ)
    (hagree : ∀ t, t < seqLen b → input1.ent b t = input2.ent b t) :
    ∀ t, dynamicRnnState cell init input1 seqLen b t
      = dynamicRnnState cell init input2 seqLen b t := by
  intro t
  induction t with
  | zero => rfl
  | succ n ih =>
    unfold dynamicRnnState at ih ⊢
    rw [List.range_succ, List.foldl_append, List.foldl_append,
      List.foldl_cons, List.foldl_cons, List.foldl_nil, List.foldl_nil, ih]
    by_cases h : n < seqLen b
    · rw [if_pos h, if_pos h, hagree n h]
    · rw [if_neg h, if_neg h]

/-- Helper: under the same agreement, the masked outputs coincide at every
time step (below the length by agreement, at and beyond it both zero). -/
theorem dynamicRnnOutput_congr {σ : Type} (cell : σ → (ℕ → ℚ) → (ℕ → ℚ) × σ)
    (init : σ) (input1 input2 : Tensor3) (seqLen : ℕ → ℕ) (b : ℕ)
    (hagree : ∀ t, t < seqLen b → input1.ent b t = input2.ent b t) :
    ∀ t, dynamicRnnOutput cell init input1 seqLen b t
      = dynamicRnnOutput cell init input2 seqLen b t := by
  intro t
  unfold dynamicRnnOutput
  by_cases h : t < seqLen b
  · rw [if_pos h, if_pos h,
      dynamicRnnState_congr cell init input1 input2 seqLen b hagree t,
      hagree t h]
  · rw [if_neg h, if_neg h]

/-- C4: for the recurrent encoders `LstmModel` and `GRUModel`, frames at or
beyond an example's true count do not influence the vector handed to the
video-level classifier: two batches of the same max_frames that agree (with
the same counts) on every frame below each example's count produce the same
aggregated vector for every example, on both the final-state path and the
pooled-outputs path. -/
theorem recurrent_padding_invariance {σ τ : Type}
    (cell : σ → (ℕ → ℚ) → (ℕ → ℚ) × σ) (init : σ) (lastH : σ → ℕ → ℚ)
    (gcell : τ → (ℕ → ℚ) → (ℕ → ℚ) × τ) (ginit : τ) (lastState : τ → ℕ → ℚ)
    (useLstmOutput : Bool) (method : String)
    (input1 input2 : Tensor3) (seqLen : ℕ → ℕ)
    (hd1 : input2.d1 = input1.d1)
    (hagree : ∀ b t, b < input1.d0 → t < seqLen b →
      input1.ent b t = input2.ent b t) :
    ∀ b, b < input1.d0 →
      LstmModel.aggVec cell init lastH useLstmOutput method input1 seqLen b
        = LstmModel.aggVec cell init lastH useLstmOutput method input2 seqLen b
      ∧ GRUModel.aggVec gcell ginit lastState useLstmOutput method input1 seqLen b
        = GRUModel.aggVec gcell ginit lastState useLstmOutput method input2
            seqLen b := by
  intro b hb
  have ha : ∀ t, t < seqLen b → input1.ent b t = input2.ent b t :=
    fun t ht => hagree b t hb ht
  have hout : (fun t => dynamicRnnOutput cell init input1 seqLen b t)
      = fun t => dynamicRnnOutput cell init input2 seqLen b t := by
    funext t
    exact dynamicRnnOutput_congr cell init input1 input2 seqLen b ha t
  have hgout : (fun t => dynamicRnnOutput gcell ginit input1 seqLen b t)
      = fun t => dynamicRnnOutput gcell ginit input2 seqLen b t := by
    funext t
    exact dynamicRnnOutput_congr gcell ginit input1 input2 seqLen b ha t
  have hstate : dynamicRnnFinalState cell init input1 seqLen b
      = dynamicRnnFinalState cell init input2 seqLen b := by
    unfold dynamicRnnFinalState
    rw [hd1]
    exact dynamicRnnState_congr cell init input1 input2 seqLen b ha input1.d1
  have hgstate : dynamicRnnFinalState gcell ginit input1 seqLen b
      = dynamicRnnFinalState gcell ginit input2 seqLen b := by
    unfold dynamicRnnFinalState
    rw [hd1]
    exact dynamicRnnState_congr gcell ginit input1 input2 seqLen b ha input1.d1
  constructor
  · unfold LstmModel.aggVec
    rw [hd1, hout, hstate]
  · unfold GRUModel.aggVec
    rw [hd1, hgout, hgstate]

/-- Witness for C4: a 1-example batch with max_frames = 3 and count 2; the
two inputs differ only in frame 2 (the padding position) and yield the same
aggregated vector under a concrete cell, on the final-state path. -/
theorem recurrent_padding_invariance_witness :
    LstmModel.aggVec (fun s v => (fun f => s + v f, s + v 0)) (0 : ℚ)
        (fun s _ => s) false "average"
        ⟨1, 3, 2, fun _ t _ => (t : ℚ)⟩ (fun _ => 2) 0
      = LstmModel.aggVec (fun s v => (fun f => s + v f, s + v 0)) (0 : ℚ)
          (fun s _ => s) false "average"
          ⟨1, 3, 2, fun _ t _ => if t < 2 then (t : ℚ) else 5⟩ (fun _ => 2) 0
    ∧ GRUModel.aggVec (fun s v => (fun f => s + v f, s + v 0)) (0 : ℚ)
        (fun s _ => s) false "average"
        ⟨1, 3, 2, fun _ t _ => (t : ℚ)⟩ (fun _ => 2) 0
      = GRUModel.aggVec (fun s v => (fun f => s + v f, s + v 0)) (0 : ℚ)
          (fun s _ => s) false "average"
          ⟨1, 3, 2, fun _ t _ => if t < 2 then (t : ℚ) else 5⟩ (fun _ => 2) 0 :=
  recurrent_padding_invariance
    (fun s v => (fun f => s + v f, s + v 0)) (0 : ℚ) (fun s _ => s)
    (fun s v => (fun f => s + v f, s + v 0)) (0 : ℚ) (fun s _ => s)
    false "average"
    ⟨1, 3, 2, fun _ t _ => (t : ℚ)⟩
    ⟨1, 3, 2, fun _ t _ => if t < 2 then (t : ℚ) else 5⟩
    (fun _ => 2) rfl
    (by
      intro b t hb ht
      funext f
      show (t : ℚ) = if t < 2 then (t : ℚ) else 5
      rw [if_pos ht])
    0 (by decide)

/-- Python `x or y` for an optional keyword argument combined with a boolean
flag default (lines 135-136): `None` and `False` are both falsy, so the flag
value is returned unless the caller passed `True`. -/
def pyOrBool (passed : Option Bool) (flag : Bool) : Bool :=
  match passed with
  | some true => true
  | _ => flag

/-- Python `x or y` for an optional integer keyword argument (lines 134,
137-138): `None` and `0` are both falsy. -/
def pyOrNat (passed : Option ℕ) (flag : ℕ) : ℕ :=
  match passed with
  | some n => if n = 0 then flag else n
  | none => flag

/-- The module-level flag values of lines 28-63 that the DBoF model reads. -/
structure ModuleFlags where
  iterations : ℕ
  dbof_add_batch_norm : Bool
  sample_random_frames : Bool
  dbof_cluster_size : ℕ
  dbof_hidden_size : ℕ
  dbof_pooling_method : String

/-- Matrix product `tf.matmul` on 2-D tensors. -/
def matmul2 (a b : Tensor2) : Tensor2 :=
  ⟨a.d0, b.d1, fun i j => ∑ k in Finset.range a.d1, a.ent i k * b.ent k j⟩

/-- Embeds `tf.nn.relu6`: the ReLU capped at 6. -/
def relu6 (q : ℚ) : ℚ := min (max q 0) 6

/-- Elementwise `tf.nn.relu6` on a 2-D tensor. -/
def relu6T (x : Tensor2) : Tensor2 :=
  ⟨x.d0, x.d1, fun i j => relu6 (x.ent i j)⟩

/-- Initializer expressions appearing in the DBoF variable declarations:
`tf.random_normal_initializer(stddev=1/math.sqrt(n))` is recorded
symbolically as `randomNormalInvSqrtStd n` (standard deviation `1 / sqrt n`)
and `tf.random_normal_initializer(stddev=c)` as `randomNormalStd c`. -/
inductive InitSpec where
  | randomNormalInvSqrtStd (n : ℕ)
  | randomNormalStd (stddev : ℚ)
  deriving DecidableEq

/-- Shape and initializer of a `tf.get_variable` declaration. -/
structure VarSpec where
  shape : List ℕ
  init : InitSpec

/-- Fan-in of a weight matrix declared with shape `[in, out]`: its first
dimension, the contraction dimension of the matmul it feeds. -/
def VarSpec.fanIn (s : VarSpec) : ℕ := s.shape.headD 0

/-- Embeds the call `tf.random_normal(stddev=...)` at line 175:
`tf.random_normal` requires its `shape` argument, which that call omits, so
Python raises TypeError as soon as the expression is evaluated. -/
def tf_random_normal_call (shape : Option (List ℕ)) : Except String (List ℕ) :=
  match shape with
  | some s => .ok s
  | none => .error "TypeError: random_normal missing required positional argument shape"

/-- All inputs of one `DbofModel.create_model` call: the module flags, the
optional keyword arguments, the input batch with its counts, and oracles for
everything the external framework supplies — the random draws of the frame
sampler, the batch-norm statistics and parameters per scope, the values of
the learned variables, and the delegated video-level classifier. -/
structure DbofEnv where
  flags : ModuleFlags
  iterationsArg : Option ℕ
  addBatchNormArg : Option Bool
  sampleRandomFramesArg : Option Bool
  clusterSizeArg : Option ℕ
  hiddenSizeArg : Option ℕ
  input : Tensor3
  counts : ℕ → ℕ
  sel : ℕ → ℕ → ℕ
  start : ℕ → ℕ
  bnGamma : String → ℕ → ℚ
  bnBeta : String → ℕ → ℚ
  bnMean : String → ℕ → ℚ
  bnInvStd : String → ℕ → ℚ
  varVal : String → ℕ → ℕ → ℚ
  biasVal : String → ℕ → ℚ
  classifier : Tensor2 → ℕ → Tensor2
  vocabSize : ℕ

namespace DbofModel

/-- Embeds line 134. -/
def iterations (e : DbofEnv) : ℕ := pyOrNat e.iterationsArg e.flags.iterations

/-- Embeds line 135: `add_batch_norm = add_batch_norm or
FLAGS.dbof_add_batch_norm`. -/
def add_batch_norm (e : DbofEnv) : Bool :=
  pyOrBool e.addBatchNormArg e.flags.dbof_add_batch_norm

/-- Embeds line 136: `random_frames = sample_random_frames or
FLAGS.sample_random_frames`. -/
def random_frames (e : DbofEnv) : Bool :=
  pyOrBool e.sampleRandomFramesArg e.flags.sample_random_frames

/-- Embeds line 137. -/
def cluster_size (e : DbofEnv) : ℕ :=
  pyOrNat e.clusterSizeArg e.flags.dbof_cluster_size

/-- Embeds line 138. -/
def hidden1_size (e : DbofEnv) : ℕ :=
  pyOrNat e.hiddenSizeArg e.flags.dbof_hidden_size

/-- Modelled from the spec: `SampleRandomFrames` of `model_utils.py` is
absent from the sources; section 4.1 defines it as drawing, per example,
`num_samples` frame indices from the valid range, giving a
`[batch, num_samples, feature_dim]` tensor. The random draws are the oracle
`sel`. -/
def SampleRandomFrames (x : Tensor3) (n : ℕ) (sel : ℕ → ℕ → ℕ) : Tensor3 :=
  ⟨x.d0, n, x.d2, fun b s f => x.ent b (sel b s) f⟩

/-- Modelled from the spec: `SampleRandomSequence` of `model_utils.py` is
absent from the sources; section 4.1 defines it as taking a contiguous
window of length `num_samples` from a per-example random start, giving a
`[batch, num_samples, feature_dim]` tensor. The random starts are the
oracle `start`. -/
def SampleRandomSequence (x : Tensor3) (n : ℕ) (start : ℕ → ℕ) : Tensor3 :=
  ⟨x.d0, n, x.d2, fun b s f => x.ent b (start b + s) f⟩

/-- Embeds lines 141-146: the input is shortened to `iterations` frames by
one of the two samplers according to `random_frames`. -/
def sampledInput (e : DbofEnv) : Tensor3 :=
  if random_frames e then SampleRandomFrames e.input (iterations e) e.sel
  else SampleRandomSequence e.input (iterations e) e.start

/-- Embeds line 147: `max_frames` read off the post-sampling shape. -/
def max_frames (e : DbofEnv) : ℕ := (sampledInput e).d1

/-- Embeds line 148. -/
def feature_size (e : DbofEnv) : ℕ := (sampledInput e).d2

/-- Embeds line 149: flattening to `[batch * max_frames, feature_size]`. -/
def reshaped_input (e : DbofEnv) : Tensor2 :=
  ⟨(sampledInput e).d0 * max_frames e, feature_size e,
    fun r f => (sampledInput e).ent (r / max_frames e) (r % max_frames e) f⟩

/-- Models `slim.batch_norm`: a framework-internal, shape-preserving
per-feature normalization; its statistics and learned parameters are the
oracles of the environment, taken per variable scope. -/
def batchNorm (e : DbofEnv) (scope : String) (x : Tensor2) : Tensor2 :=
  ⟨x.d0, x.d1, fun i j =>
    e.bnGamma scope j * ((x.ent i j - e.bnMean scope j) * e.bnInvStd scope j)
      + e.bnBeta scope j⟩

/-- Embeds lines 152-158: optional input batch normalization. -/
def input_bn (e : DbofEnv) : Tensor2 :=
  if add_batch_norm e then batchNorm e "input_bn" (reshaped_input e)
  else reshaped_input e

/-- Embeds lines 160-162: shape and initializer of `cluster_weights`. -/
def cluster_weights_spec (e : DbofEnv) : VarSpec :=
  ⟨[feature_size e, cluster_size e], .randomNormalInvSqrtStd (feature_size e)⟩

/-- Value of `cluster_weights` as created by `tf.get_variable`. -/
def cluster_weights (e : DbofEnv) : Tensor2 :=
  ⟨feature_size e, cluster_size e, e.varVal "cluster_weights"⟩

/-- Embeds lines 184-186: shape and initializer of `hidden1_weights`. -/
def hidden1_weights_spec (e : DbofEnv) : VarSpec :=
  ⟨[cluster_size e, hidden1_size e], .randomNormalInvSqrtStd (cluster_size e)⟩

/-- Value of `hidden1_weights` as created by `tf.get_variable`. -/
def hidden1_weights (e : DbofEnv) : Tensor2 :=
  ⟨cluster_size e, hidden1_size e, e.varVal "hidden1_weights"⟩

/-- Embeds lines 164-178: the cluster projection, then batch norm (if
enabled) or the learned-bias branch — whose initializer expression
`tf.random_normal(stddev=...)` lacks the required shape argument and raises
TypeError — then the capped ReLU of line 178. -/
def cluster_activation (e : DbofEnv) : Except String Tensor2 :=
  let proj := matmul2 (input_bn e) (cluster_weights e)
  if add_batch_norm e then
    .ok (relu6T (batchNorm e "cluster_bn" proj))
  else
    match tf_random_normal_call none with
    | .error err => .error err
    | .ok _ =>
      .ok (relu6T ⟨proj.d0, proj.d1,
        fun i j => proj.ent i j + e.biasVal "cluster_biases" j⟩)

/-- Embeds line 181: reshape back to `[batch, max_frames, cluster_size]`. -/
def activation3 (e : DbofEnv) : Except String Tensor3 :=
  (cluster_activation e).map (fun a =>
    ⟨e.input.d0, max_frames e, cluster_size e,
      fun b t j => a.ent (b * max_frames e + t) j⟩)

/-- Embeds line 182: `FramePooling` across the sample axis with the
configured method. -/
def pooled (e : DbofEnv) : Except String Tensor2 :=
  (activation3 e).map (fun a3 => FramePooling a3 e.flags.dbof_pooling_method)

/-- Embeds lines 188-203: the hidden projection, batch norm or learned bias
(here the initializer call is well-formed), and the capped ReLU of
line 202. -/
def hidden_activation (e : DbofEnv) : Except String Tensor2 :=
  (pooled e).map (fun p =>
    let proj := matmul2 p (hidden1_weights e)
    relu6T (if add_batch_norm e then batchNorm e "hidden1_bn" proj
      else ⟨proj.d0, proj.d1,
        fun i j => proj.ent i j + e.biasVal "hidden1_biases" j⟩))

/-- Embeds lines 205-210: delegation to the configured video-level
classifier. -/
def create_model (e : DbofEnv) : Except String Tensor2 :=
  (hidden_activation e).map (fun h => e.classifier h e.vocabSize)

/-- The cluster-stage activation on the batch-norm path: projection, batch
norm, capped ReLU. -/
def clusterActivationBN (e : DbofEnv) : Tensor2 :=
  relu6T (batchNorm e "cluster_bn" (matmul2 (input_bn e) (cluster_weights e)))

/-- The cluster activation reshaped back to
`[batch, max_frames, cluster_size]` on the batch-norm path. -/
def activation3BN (e : DbofEnv) : Tensor3 :=
  ⟨e.input.d0, max_frames e, cluster_size e,
    fun b t j => (clusterActivationBN e).ent (b * max_frames e + t) j⟩

/-- The pooled activation on the batch-norm path. -/
def pooledBN (e : DbofEnv) : Tensor2 :=
  FramePooling (activation3BN e) e.flags.dbof_pooling_method

/-- The tensor handed to the video-level classifier on the batch-norm
path. -/
def hiddenActivationBN (e : DbofEnv) : Tensor2 :=
  relu6T (batchNorm e "hidden1_bn" (matmul2 (pooledBN e) (hidden1_weights e)))

end DbofModel

/-- The capped ReLU keeps every value inside [0, 6]. -/
theorem relu6_mem_Icc (q : ℚ) : 0 ≤ relu6 q ∧ relu6 q ≤ 6 :=
  ⟨le_min (le_max_right q 0) (by norm_num), min_le_right _ _⟩

/-- C5: with batch normalization effective, the DBoF pipeline succeeds; the
activation after the cluster projection and capped ReLU has every component
in [0, 6], pooling across the sample axis reduces it to
`[batch, cluster_size]`, and the tensor handed to the video-level classifier
after the second projection and capped ReLU has shape
`[batch, hidden_size]`. -/
theorem dbof_capped_relu_and_shapes (e : DbofEnv)
    (hbn : DbofModel.add_batch_norm e = true) :
    DbofModel.cluster_activation e = .ok (DbofModel.clusterActivationBN e)
      ∧ (∀ i j, 0 ≤ (DbofModel.clusterActivationBN e).ent i j
          ∧ (DbofModel.clusterActivationBN e).ent i j ≤ 6)
      ∧ DbofModel.pooled e = .ok (DbofModel.pooledBN e)
      ∧ (DbofModel.pooledBN e).d0 = e.input.d0
      ∧ (DbofModel.pooledBN e).d1 = DbofModel.cluster_size e
      ∧ DbofModel.hidden_activation e = .ok (DbofModel.hiddenActivationBN e)
      ∧ (DbofModel.hiddenActivationBN e).d0 = e.input.d0
      ∧ (DbofModel.hiddenActivationBN e).d1 = DbofModel.hidden1_size e := by
  have h1 : DbofModel.cluster_activation e
      = .ok (DbofModel.clusterActivationBN e) := by
    unfold DbofModel.cluster_activation DbofModel.clusterActivationBN
    rw [hbn]
    rfl
  have h2 : DbofModel.pooled e = .ok (DbofModel.pooledBN e) := by
    simp only [DbofModel.pooled, DbofModel.activation3, h1, Except.map]
    rfl
  have h3 : DbofModel.hidden_activation e
      = .ok (DbofModel.hiddenActivationBN e) := by
    simp only [DbofModel.hidden_activation, h2, Except.map, hbn]
    rfl
  exact ⟨h1, fun i j => relu6_mem_Icc _, h2, rfl, rfl, h3, rfl, rfl⟩

/-- A concrete DBoF environment: batch 2, 10 frames, 5 features, all
framework oracles constant. -/
def sampleDbofEnv : DbofEnv where
  flags := ⟨30, true, true, 8, 4, "max"⟩
  iterationsArg := none
  addBatchNormArg := none
  sampleRandomFramesArg := none
  clusterSizeArg := none
  hiddenSizeArg := none
  input := ⟨2, 10, 5, fun _ _ _ => 1⟩
  counts := fun _ => 10
  sel := fun _ _ => 0
  start := fun _ => 0
  bnGamma := fun _ _ => 1
  bnBeta := fun _ _ => 0
  bnMean := fun _ _ => 0
  bnInvStd := fun _ _ => 1
  varVal := fun _ _ _ => 1
  biasVal := fun _ _ => 1
  classifier := fun x n => ⟨x.d0, n, fun _ _ => 0⟩
  vocabSize := 3

/-- Witness for C5 at the concrete environment (its batch-norm flag is
true and no keyword argument overrides it). -/
theorem dbof_capped_relu_and_shapes_witness :
    DbofModel.cluster_activation sampleDbofEnv
        = .ok (DbofModel.clusterActivationBN sampleDbofEnv)
      ∧ (∀ i j, 0 ≤ (DbofModel.clusterActivationBN sampleDbofEnv).ent i j
          ∧ (DbofModel.clusterActivationBN sampleDbofEnv).ent i j ≤ 6)
      ∧ DbofModel.pooled sampleDbofEnv = .ok (DbofModel.pooledBN sampleDbofEnv)
      ∧ (DbofModel.pooledBN sampleDbofEnv).d0 = sampleDbofEnv.input.d0
      ∧ (DbofModel.pooledBN sampleDbofEnv).d1
        = DbofModel.cluster_size sampleDbofEnv
      ∧ DbofModel.hidden_activation sampleDbofEnv
        = .ok (DbofModel.hiddenActivationBN sampleDbofEnv)
      ∧ (DbofModel.hiddenActivationBN sampleDbofEnv).d0 = sampleDbofEnv.input.d0
      ∧ (DbofModel.hiddenActivationBN sampleDbofEnv).d1
        = DbofModel.hidden1_size sampleDbofEnv :=
  dbof_capped_relu_and_shapes sampleDbofEnv rfl

/-- C7: both learned DBoF projection matrices are declared with the
fan-in-scaled normal initializer: `cluster_weights`, of shape
`[feature_size, cluster_size]`, with standard deviation
`1 / sqrt(feature_size)`, and `hidden1_weights`, of shape
`[cluster_size, hidden_size]`, with standard deviation
`1 / sqrt(cluster_size)` — in both cases `1 / sqrt(fan_in)`. -/
theorem dbof_fan_in_scaled_init (e : DbofEnv) :
    (DbofModel.cluster_weights_spec e).init
        = InitSpec.randomNormalInvSqrtStd (DbofModel.cluster_weights_spec e).fanIn
      ∧ (DbofModel.cluster_weights_spec e).fanIn = DbofModel.feature_size e
      ∧ (DbofModel.hidden1_weights_spec e).init
        = InitSpec.randomNormalInvSqrtStd (DbofModel.hidden1_weights_spec e).fanIn
      ∧ (DbofModel.hidden1_weights_spec e).fanIn = DbofModel.cluster_size e :=
  ⟨rfl, rfl, rfl, rfl⟩

/-- C8: an explicitly passed `add_batch_norm=False` or
`sample_random_frames=False` is ignored: the Python `or` with the global
flag makes the effective value the flag default, so an explicit `False`
can never disable either behavior when the flag is true. -/
theorem dbof_explicit_false_ignored (e : DbofEnv)
    (h1 : e.addBatchNormArg = some false)
    (h2 : e.sampleRandomFramesArg = some false) :
    DbofModel.add_batch_norm e = e.flags.dbof_add_batch_norm
      ∧ DbofModel.random_frames e = e.flags.sample_random_frames
      ∧ (e.flags.dbof_add_batch_norm = true → DbofModel.add_batch_norm e = true)
      ∧ (e.flags.sample_random_frames = true → DbofModel.random_frames e = true) := by
  unfold DbofModel.add_batch_norm DbofModel.random_frames
  rw [h1, h2]
  refine ⟨rfl, rfl, ?_, ?_⟩
  · intro h
    rw [h]
    rfl
  · intro h
    rw [h]
    rfl

/-- The concrete environment with both options explicitly passed as
`False`. -/
def dbofEnvExplicitFalse : DbofEnv :=
  { sampleDbofEnv with
      addBatchNormArg := some false
      sampleRandomFramesArg := some false }

/-- Witness for C8: with both flags true and both arguments explicitly
`False`, the effective values are still the flag defaults (true). -/
theorem dbof_explicit_false_ignored_witness :
    DbofModel.add_batch_norm dbofEnvExplicitFalse
        = dbofEnvExplicitFalse.flags.dbof_add_batch_norm
      ∧ DbofModel.random_frames dbofEnvExplicitFalse
        = dbofEnvExplicitFalse.flags.sample_random_frames
      ∧ (dbofEnvExplicitFalse.flags.dbof_add_batch_norm = true →
          DbofModel.add_batch_norm dbofEnvExplicitFalse = true)
      ∧ (dbofEnvExplicitFalse.flags.sample_random_frames = true →
          DbofModel.random_frames dbofEnvExplicitFalse = true) :=
  dbof_explicit_false_ignored dbofEnvExplicitFalse rfl rfl

/-- C10: whenever the effective `add_batch_norm` is false, DBoF graph
construction fails: the cluster-bias branch evaluates
`tf.random_normal(stddev=...)` without the required shape argument, raising
TypeError, so `create_model` never returns predictions on that
configuration. -/
theorem dbof_no_batch_norm_fails (e : DbofEnv)
    (hbn : DbofModel.add_batch_norm e = false) :
    DbofModel.create_model e
      = .error "TypeError: random_normal missing required positional argument shape" := by
  have h1 : DbofModel.cluster_activation e
      = .error "TypeError: random_normal missing required positional argument shape" := by
    unfold DbofModel.cluster_activation
    rw [hbn]
    rfl
  rw [DbofModel.create_model, DbofModel.hidden_activation, DbofModel.pooled,
    DbofModel.activation3, h1]
  rfl

/-- The concrete environment with the batch-norm flag false (and no keyword
override), making the effective `add_batch_norm` false. -/
def dbofEnvNoBatchNorm : DbofEnv :=
  { sampleDbofEnv with flags := ⟨30, false, true, 8, 4, "max"⟩ }

/-- Witness for C10 at the concrete no-batch-norm environment. -/
theorem dbof_no_batch_norm_fails_witness :
    DbofModel.create_model dbofEnvNoBatchNorm
      = .error "TypeError: random_normal missing required positional argument shape" :=
  dbof_no_batch_norm_fails dbofEnvNoBatchNorm rfl

/-- The final-state object a recurrent cell stack returns: a single
concatenated tensor under `state_is_tuple=False`, or a list of per-layer
(c, h) pairs under tuple states. -/
inductive RnnStateVal where
  | tens (t : Tensor2)
  | tupleList (layers : List (Tensor2 × Tensor2))

/-- State signature of one inner recurrent cell: `BasicLSTMCell` keeps its
default `state_is_tuple=True` at lines 281 and 286 (only `lstm_size` is
passed), so its state is the `LSTMStateTuple` namedtuple; a cell built with
`state_is_tuple=False` would return a single tensor. -/
inductive CellStateKind where
  | tuple
  | tensor
  deriving DecidableEq

/-- The state kind of the `BasicLSTMCell(lstm_size)` calls of lines 281 and
286: the default `state_is_tuple=True`, hence a tuple state. -/
def basicLSTMCellStateKind : CellStateKind := .tuple

/-- Embeds `tf.contrib.rnn.MultiRNNCell` construction per its documented
contract: it raises ValueError when the cell list is empty, and when
`state_is_tuple=False` is passed while at least one inner cell returns a
state tuple. -/
def multiRNNCell (cells : List CellStateKind) (stateIsTuple : Bool) :
    Except String (List CellStateKind × Bool) :=
  if cells.isEmpty then
    .error "ValueError: Must specify at least one cell for MultiRNNCell."
  else if !stateIsTuple && cells.contains CellStateKind.tuple then
    .error "ValueError: Some cells return tuples of states, but the flag state_is_tuple is not set."
  else .ok (cells, stateIsTuple)

/-- Embeds the Python expression `state[-1].h`: on a tuple state it selects
the last layer's hidden tensor; on a plain tensor, `state[-1]` is again a
tensor and the attribute access `.h` raises AttributeError. -/
def stateLastH : RnnStateVal → Except String Tensor2
  | .tupleList layers =>
    match layers.getLast? with
    | some l => .ok l.2
    | none => .error "IndexError: state index out of range"
  | .tens _ => .error "AttributeError: Tensor object has no attribute h"

/-- Embeds `tf.concat(..., 1)` of two 2-D tensors along the feature axis. -/
def concatAxis1 (a b : Tensor2) : Tensor2 :=
  ⟨a.d0, a.d1 + b.d1,
    fun i j => if j < a.d1 then a.ent i j else b.ent i (j - a.d1)⟩

/-- Embeds `tf.concat(..., 2)` of two 3-D tensors along the feature axis. -/
def concatAxis2 (a b : Tensor3) : Tensor3 :=
  ⟨a.d0, a.d1, a.d2 + b.d2,
    fun x t f => if f < a.d2 then a.ent x t f else b.ent x t (f - a.d2)⟩

namespace BidirectionalLSTMModel

/-- Embeds lines 277-310. Lines 280-288 build `lstm_fw` and `lstm_bw` as
`MultiRNNCell([...BasicLSTMCell(lstm_size)...], state_is_tuple=False)` over
`number_of_layers` inner cells that keep their default tuple state, so each
construction is checked by `multiRNNCell`. Only if both constructions
succeeded would `tf.nn.bidirectional_dynamic_rnn` run (its per-step outputs
and final states supplied by the framework as the `fwOutputs`/`bwOutputs`/
`fwState`/`bwState` oracles, the states plain tensors under
`state_is_tuple=False`), outputs be concatenated along axis 2 and states
along axis 1, and the aggregation of lines 302-305 choose between the
pooled outputs and `state[-1].h` on the concatenated state tensor. -/
def create_model (numberOfLayers : ℕ) (useLstmOutput : Bool) (method : String)
    (fwOutputs bwOutputs : Tensor3) (fwState bwState : Tensor2)
    (classifier : Tensor2 → ℕ → Tensor2) (vocabSize : ℕ) :
    Except String Tensor2 :=
  match multiRNNCell (List.replicate numberOfLayers basicLSTMCellStateKind)
      false with
  | .error err => .error err
  | .ok _ =>
    match multiRNNCell (List.replicate numberOfLayers basicLSTMCellStateKind)
        false with
    | .error err => .error err
    | .ok _ =>
      let outputs := concatAxis2 fwOutputs bwOutputs
      let state := concatAxis1 fwState bwState
      match (if useLstmOutput then .ok (FramePooling outputs method)
          else stateLastH (.tens state)) with
      | .ok agg => .ok (classifier agg vocabSize)
      | .error err => .error err

end BidirectionalLSTMModel

/-- C9 counterexample: at a concrete input with one layer and
`use_lstm_output = false`, `BidirectionalLSTMModel.create_model` raises
ValueError at the `MultiRNNCell` construction of line 280 — not the
AttributeError from `state[-1].h` the claim asserts, which is therefore
never the failure the program exhibits. -/
theorem bidirectionalLSTM_attribute_error_cex :
    BidirectionalLSTMModel.create_model 1 false "average"
        ⟨1, 3, 2, fun _ _ _ => 1⟩ ⟨1, 3, 2, fun _ _ _ => 1⟩
        ⟨1, 2, fun _ _ => 1⟩ ⟨1, 2, fun _ _ => 1⟩
        (fun x n => ⟨x.d0, n, fun _ _ => 0⟩) 4
      = .error "ValueError: Some cells return tuples of states, but the flag state_is_tuple is not set."
    ∧ BidirectionalLSTMModel.create_model 1 false "average"
        ⟨1, 3, 2, fun _ _ _ => 1⟩ ⟨1, 3, 2, fun _ _ _ => 1⟩
        ⟨1, 2, fun _ _ => 1⟩ ⟨1, 2, fun _ _ => 1⟩
        (fun x n => ⟨x.d0, n, fun _ _ => 0⟩) 4
      ≠ .error "AttributeError: Tensor object has no attribute h" := by
  refine ⟨rfl, ?_⟩
  intro h
  simp only [BidirectionalLSTMModel.create_model] at h
  exact absurd (Except.error.inj h) (by decide)

/-- C9 amended: `BidirectionalLSTMModel.create_model` fails for every input
and on both aggregation paths, but at cell-stack construction: passing
`state_is_tuple=False` to `MultiRNNCell` over default tuple-state
`BasicLSTMCell`s raises ValueError at line 280 (with zero layers, ValueError
for the empty cell list), so `state[-1].h` is never reached and no
predictions are returned. -/
theorem bidirectionalLSTM_construction_value_error
    (numberOfLayers : ℕ) (useLstmOutput : Bool) (method : String)
    (fwOutputs bwOutputs : Tensor3) (fwState bwState : Tensor2)
    (classifier : Tensor2 → ℕ → Tensor2) (vocabSize : ℕ) :
    BidirectionalLSTMModel.create_model numberOfLayers useLstmOutput method
        fwOutputs bwOutputs fwState bwState classifier vocabSize
      = .error (if numberOfLayers = 0 then
          "ValueError: Must specify at least one cell for MultiRNNCell."
        else
          "ValueError: Some cells return tuples of states, but the flag state_is_tuple is not set.") := by
  cases numberOfLayers with
  | zero => rfl
  | succ n =>
    have hcell : multiRNNCell
        (List.replicate (n + 1) basicLSTMCellStateKind) false
        = .error "ValueError: Some cells return tuples of states, but the flag state_is_tuple is not set." := by
      rw [multiRNNCell, List.replicate_succ]
      rfl
    rw [BidirectionalLSTMModel.create_model, hcell]
    rfl
